import Mathlib

/-!
# cxxxr/todo-app: the todo entity and the command dispatcher

A shallow embedding of `internal/todo/todo.go` (the entity, its validation and
mutation rules) and of `cmd/todo/main.go` (the dispatcher, further down).

* A Go `string` is read through its runes and embedded as a Lean `String`
  (a byte that is not valid UTF-8 reads as the rune U+FFFD, which is not
  white space).
* `strings.TrimSpace` and `unicode.IsSpace` belong to the Go standard library;
  they are embedded from their documented behaviour (all leading and trailing
  white space, as defined by Unicode, removed).
* `time.Now()` is embedded as an explicit argument `now`, the clock reading
  taken by the call. A `Time` is an instant on the clock's time line.
* A method with a pointer receiver returns the receiver's state after the call.
* A Go result `(*Todo, error)` is a pair of options, `none` standing for `nil`.
-/

namespace Todo

/-! ## Standard library: white space and trimming -/

/-- Go's `unicode.IsSpace`: in Latin-1 the runes `\t \n \v \f \r`, space,
U+0085 and U+00A0; beyond Latin-1 the runes with the `White_Space` property. -/
def isSpace (r : Char) : Bool :=
  let n := r.toNat
  if n ≤ 0xFF then
    n == 0x09 || n == 0x0A || n == 0x0B || n == 0x0C || n == 0x0D || n == 0x20
      || n == 0x85 || n == 0xA0
  else
    n == 0x1680 || (0x2000 ≤ n && n ≤ 0x200A) || n == 0x2028 || n == 0x2029
      || n == 0x202F || n == 0x205F || n == 0x3000

/-- Go's `strings.TrimLeftFunc` on the runes of a string. -/
def TrimLeftFunc (s : List Char) (f : Char → Bool) : List Char :=
  s.dropWhile f

/-- Go's `strings.TrimRightFunc` on the runes of a string. -/
def TrimRightFunc (s : List Char) (f : Char → Bool) : List Char :=
  (s.reverse.dropWhile f).reverse

/-- Go's `strings.TrimFunc`: `TrimRightFunc(TrimLeftFunc(s, f), f)`. -/
def TrimFunc (s : List Char) (f : Char → Bool) : List Char :=
  TrimRightFunc (TrimLeftFunc s f) f

/-- Go's `strings.TrimSpace`: `s` without its leading and trailing white space. -/
def TrimSpace (s : String) : String :=
  String.mk (TrimFunc s.data isSpace)

/-! ## The entity -/

/-- An instant on the clock's time line (a reading of `time.Now()`). -/
abbrev Time := Int

/-- The package's error values. -/
inductive Error where
  | ErrEmptyTitle
  deriving DecidableEq, Repr

end Todo

/-- The struct `Todo` of `todo.go`. -/
structure Todo where
  ID : Int
  Title : String
  Description : String
  Completed : Bool
  CreatedAt : Todo.Time
  UpdatedAt : Todo.Time
  deriving DecidableEq, Repr

namespace Todo

/-- `NewTodo` of `todo.go`; `now` is the reading of its one `time.Now()` call. -/
def NewTodo (id : Int) (title description : String) (now : Time) :
    Option Todo × Option Error :=
  let title := TrimSpace title
  if title = "" then
    (none, some Error.ErrEmptyTitle)
  else
    (some
      { ID := id
        Title := title
        Description := TrimSpace description
        Completed := false
        CreatedAt := now
        UpdatedAt := now },
      none)

/-- `(*Todo).MarkComplete` of `todo.go`. -/
def MarkComplete (t : Todo) (now : Time) : Todo :=
  let t := { t with Completed := true }
  { t with UpdatedAt := now }

/-- `(*Todo).MarkIncomplete` of `todo.go`. -/
def MarkIncomplete (t : Todo) (now : Time) : Todo :=
  let t := { t with Completed := false }
  { t with UpdatedAt := now }

/-- `(*Todo).Update` of `todo.go`. -/
def Update (t : Todo) (title description : String) (now : Time) : Todo :=
  let title := TrimSpace title
  let description := TrimSpace description
  let t := if title ≠ "" then { t with Title := title } else t
  let t := if description ≠ "" then { t with Description := description } else t
  { t with UpdatedAt := now }

/-- `(*Todo).Validate` of `todo.go`: the receiver after the call (the body
assigns to no field) and the returned error. -/
def Validate (t : Todo) : Todo × Option Error :=
  if TrimSpace t.Title = "" then
    (t, some Error.ErrEmptyTitle)
  else
    (t, none)

/-! ## Sequences of calls on one item -/

/-- One call of a mutating method of `Todo`, with its arguments. -/
inductive Call where
  | MarkComplete
  | MarkIncomplete
  | Update (title description : String)
  deriving DecidableEq, Repr

/-- The item after one call whose `time.Now()` reads `now`. -/
def Call.apply (c : Call) (t : Todo) (now : Time) : Todo :=
  match c with
  | .MarkComplete => Todo.MarkComplete t now
  | .MarkIncomplete => Todo.MarkIncomplete t now
  | .Update title description => Todo.Update t title description now

/-- The item after a sequence of calls, each paired with its clock reading. -/
def runCalls (t : Todo) : List (Call × Time) → Todo
  | [] => t
  | (c, now) :: rest => runCalls (c.apply t now) rest

/-- The clock never runs backwards: starting from the reading `start`, the
readings of the calls, in order, never decrease. -/
def clockMonotone (start : Time) : List (Call × Time) → Bool
  | [] => true
  | (_, now) :: rest => decide (start ≤ now) && clockMonotone now rest

/-- A string is empty or consists solely of white space. -/
def isBlank (s : String) : Bool :=
  s.data.all isSpace

/-- The string `r` is `s` with its leading and trailing white space removed:
`s` is `r` between two runs of white space, and `r` neither starts nor ends
with white space. -/
def IsTrimOf (s r : String) : Prop :=
  ∃ pre suf : List Char,
    s.data = pre ++ r.data ++ suf ∧
    (∀ c ∈ pre, isSpace c = true) ∧ (∀ c ∈ suf, isSpace c = true) ∧
    (∀ c, r.data.head? = some c → isSpace c = false) ∧
    (∀ c, r.data.getLast? = some c → isSpace c = false)

/-- One method call on an item: a mutating call or the check `Validate`. -/
inductive Method where
  | Mutate (c : Call)
  | Validate
  deriving DecidableEq, Repr

/-- The item after one method call whose `time.Now()`, if any, reads `now`. -/
def Method.apply (m : Method) (t : Todo) (now : Time) : Todo :=
  match m with
  | .Mutate c => c.apply t now
  | .Validate => (Todo.Validate t).1

/-- The item after a sequence of method calls, each paired with the clock
reading at the time of the call. -/
def runMethods (t : Todo) : List (Method × Time) → Todo
  | [] => t
  | (m, now) :: rest => runMethods (m.apply t now) rest

end Todo

/-! ## The command dispatcher (`cmd/todo/main.go`)

A Go `error` built by `fmt.Errorf` is embedded as its message. The result of
writing to standard output is an argument: `none` when `fmt.Println` succeeds,
the write error's message otherwise. A function that prints returns the text
it hands to the stream next to its result. -/

namespace Main

/-- The usage message of `printHelp`. -/
def helpText : String :=
  "todo - A simple CLI todo application (v0.1.0 - initial setup)\n\nUsage:\n  todo <command> [arguments]\n\nAvailable Commands:\n  help        Show this help message\n\nAdditional commands (add, list, complete, delete) will be available in future versions."

/-- `printHelp` of `main.go`: the text handed to standard output and the
returned error. -/
def printHelp (writeErr : Option String) : String × Option String :=
  let err := writeErr
  match err with
  | some e => (helpText ++ "\n", some ("failed to write help output: " ++ e))
  | none => (helpText ++ "\n", none)

/-- `run` of `main.go` on `os.Args` (the program name first): the text handed
to standard output and the returned error. -/
def run (osArgs : List String) (writeErr : Option String) : String × Option String :=
  if h : osArgs.length < 2 then
    ("", some "no command specified. Use 'todo help' for usage information")
  else
    let command := osArgs.get ⟨1, by omega⟩
    if command = "help" ∨ command = "--help" ∨ command = "-h" then
      printHelp writeErr
    else
      ("", some ("unknown command: " ++ command ++ ". Use 'todo help' for usage information"))

/-- What one run of the program leaves behind. -/
structure Outcome where
  stdout : String
  stderr : String
  exitCode : Nat
  deriving DecidableEq, Repr

/-- `main` of `main.go`: on an error of `run` it hands `Error: <error>` and a
newline to standard error and exits with code 1, whether or not that write
succeeds; otherwise it returns and the process exits with code 0. -/
def main (osArgs : List String) (writeErr : Option String) : Outcome :=
  match run osArgs writeErr with
  | (out, some err) => { stdout := out, stderr := "Error: " ++ err ++ "\n", exitCode := 1 }
  | (out, none) => { stdout := out, stderr := "", exitCode := 0 }

end Main

namespace Todo

/-! ## Trimming: the facts the entity relies on -/

theorem TrimRightFunc_eq_rdropWhile (s : List Char) (f : Char → Bool) :
    TrimRightFunc s f = s.rdropWhile f := rfl

theorem TrimLeftFunc_head_not (s : List Char) (f : Char → Bool) (c : Char)
    (h : (TrimLeftFunc s f).head? = some c) : f c = false := by
  have h1 := List.head?_dropWhile_not f s
  unfold TrimLeftFunc at h
  rw [h] at h1
  simpa using h1

theorem TrimRightFunc_getLast_not (s : List Char) (f : Char → Bool) (c : Char)
    (h : (TrimRightFunc s f).getLast? = some c) : f c = false := by
  unfold TrimRightFunc at h
  rw [List.getLast?_reverse] at h
  exact TrimLeftFunc_head_not s.reverse f c h

theorem TrimRightFunc_head (s : List Char) (f : Char → Bool) (c : Char)
    (h : (TrimRightFunc s f).head? = some c) : s.head? = some c := by
  obtain ⟨t, ht⟩ : TrimRightFunc s f <+: s := List.rdropWhile_prefix f s
  cases hr : TrimRightFunc s f with
  | nil => rw [hr] at h; simp at h
  | cons a l =>
    rw [hr] at h ht
    rw [← ht]
    simpa using h

theorem TrimFunc_head_not (s : List Char) (f : Char → Bool) (c : Char)
    (h : (TrimFunc s f).head? = some c) : f c = false :=
  TrimLeftFunc_head_not s f c (TrimRightFunc_head _ f c h)

theorem TrimFunc_getLast_not (s : List Char) (f : Char → Bool) (c : Char)
    (h : (TrimFunc s f).getLast? = some c) : f c = false :=
  TrimRightFunc_getLast_not _ f c h

theorem TrimLeftFunc_eq_nil_iff (s : List Char) (f : Char → Bool) :
    TrimLeftFunc s f = [] ↔ ∀ c ∈ s, f c = true := by
  unfold TrimLeftFunc
  exact List.dropWhile_eq_nil_iff

theorem TrimFunc_eq_nil_iff (s : List Char) (f : Char → Bool) :
    TrimFunc s f = [] ↔ ∀ c ∈ s, f c = true := by
  rw [← TrimLeftFunc_eq_nil_iff]
  unfold TrimFunc
  rw [TrimRightFunc_eq_rdropWhile, List.rdropWhile_eq_nil_iff]
  constructor
  · intro h
    cases hl : TrimLeftFunc s f with
    | nil => rfl
    | cons a l =>
      have h1 := TrimLeftFunc_head_not s f a (by rw [hl]; rfl)
      have h2 := h a (by rw [hl]; exact List.mem_cons_self a l)
      rw [h1] at h2
      exact absurd h2 (by simp)
  · intro h c hc
    rw [h] at hc
    exact absurd hc (List.not_mem_nil c)

theorem TrimLeftFunc_of_head_not (s : List Char) (f : Char → Bool)
    (h : ∀ c, s.head? = some c → f c = false) : TrimLeftFunc s f = s := by
  unfold TrimLeftFunc
  cases s with
  | nil => rfl
  | cons a l =>
    have := h a rfl
    simp [List.dropWhile, this]

theorem TrimFunc_idem (s : List Char) (f : Char → Bool) :
    TrimFunc (TrimFunc s f) f = TrimFunc s f := by
  have h1 : TrimLeftFunc (TrimFunc s f) f = TrimFunc s f :=
    TrimLeftFunc_of_head_not _ f (TrimFunc_head_not s f)
  have h2 : TrimFunc (TrimFunc s f) f =
      TrimRightFunc (TrimLeftFunc (TrimFunc s f) f) f := rfl
  rw [h2, h1]
  unfold TrimFunc
  rw [TrimRightFunc_eq_rdropWhile, TrimRightFunc_eq_rdropWhile]
  exact List.rdropWhile_idempotent f _

theorem TrimRightFunc_append_rtakeWhile (s : List Char) (f : Char → Bool) :
    TrimRightFunc s f ++ s.rtakeWhile f = s := by
  unfold TrimRightFunc List.rtakeWhile
  rw [← List.reverse_append, List.takeWhile_append_dropWhile, List.reverse_reverse]

theorem TrimFunc_decompose (s : List Char) (f : Char → Bool) :
    ∃ pre suf : List Char, s = pre ++ TrimFunc s f ++ suf ∧
      (∀ c ∈ pre, f c = true) ∧ (∀ c ∈ suf, f c = true) := by
  refine ⟨s.takeWhile f, (TrimLeftFunc s f).rtakeWhile f, ?_, ?_, ?_⟩
  · have h1 : TrimFunc s f ++ (TrimLeftFunc s f).rtakeWhile f = TrimLeftFunc s f := by
      unfold TrimFunc
      exact TrimRightFunc_append_rtakeWhile _ f
    rw [List.append_assoc, h1]
    unfold TrimLeftFunc
    exact (List.takeWhile_append_dropWhile f s).symm
  · intro c hc
    exact List.mem_takeWhile_imp hc
  · intro c hc
    exact List.mem_rtakeWhile_imp hc

theorem TrimSpace_data (s : String) : (TrimSpace s).data = TrimFunc s.data isSpace := rfl

theorem String_eq_empty_iff (s : String) : s = "" ↔ s.data = [] := by
  constructor
  · intro h; rw [h]
  · intro h; exact String.ext h

theorem TrimSpace_eq_empty_iff (s : String) :
    TrimSpace s = "" ↔ ∀ c ∈ s.data, isSpace c = true := by
  rw [String_eq_empty_iff, TrimSpace_data, TrimFunc_eq_nil_iff]

theorem TrimSpace_eq_empty_iff_isBlank (s : String) :
    TrimSpace s = "" ↔ isBlank s = true := by
  rw [TrimSpace_eq_empty_iff]
  unfold isBlank
  rw [List.all_eq_true]

theorem TrimSpace_idem (s : String) : TrimSpace (TrimSpace s) = TrimSpace s := by
  apply String.ext
  rw [TrimSpace_data, TrimSpace_data]
  exact TrimFunc_idem s.data isSpace

theorem TrimSpace_isTrimOf (s : String) : IsTrimOf s (TrimSpace s) := by
  obtain ⟨pre, suf, h1, h2, h3⟩ := TrimFunc_decompose s.data isSpace
  exact ⟨pre, suf, h1, h2, h3, TrimFunc_head_not s.data isSpace,
    TrimFunc_getLast_not s.data isSpace⟩

/-! ## Stepping lemmas for sequences of calls -/

theorem Update_Title (t : Todo) (title description : String) (now : Time) :
    (Update t title description now).Title =
      if TrimSpace title = "" then t.Title else TrimSpace title := by
  unfold Update
  by_cases h1 : TrimSpace title = "" <;> by_cases h2 : TrimSpace description = "" <;>
    simp [h1, h2]

theorem Update_Description (t : Todo) (title description : String) (now : Time) :
    (Update t title description now).Description =
      if TrimSpace description = "" then t.Description else TrimSpace description := by
  unfold Update
  by_cases h1 : TrimSpace title = "" <;> by_cases h2 : TrimSpace description = "" <;>
    simp [h1, h2]

theorem Update_frame (t : Todo) (title description : String) (now : Time) :
    (Update t title description now).ID = t.ID ∧
      (Update t title description now).Completed = t.Completed ∧
      (Update t title description now).CreatedAt = t.CreatedAt ∧
      (Update t title description now).UpdatedAt = now := by
  unfold Update
  by_cases h1 : TrimSpace title = "" <;> by_cases h2 : TrimSpace description = "" <;>
    simp [h1, h2]

theorem NewTodo_some (id : Int) (title description : String) (now : Time) (item : Todo)
    (h : NewTodo id title description now = (some item, none)) :
    TrimSpace title ≠ "" ∧
      item = ⟨id, TrimSpace title, TrimSpace description, false, now, now⟩ := by
  unfold NewTodo at h
  by_cases h1 : TrimSpace title = ""
  · simp [h1] at h
  · simp [h1] at h
    exact ⟨h1, h.symm⟩

theorem Call_apply_Title_not_blank (c : Call) (t : Todo) (now : Time)
    (h : TrimSpace t.Title ≠ "") : TrimSpace (c.apply t now).Title ≠ "" := by
  cases c with
  | MarkComplete => exact h
  | MarkIncomplete => exact h
  | Update title description =>
    show TrimSpace (Update t title description now).Title ≠ ""
    rw [Update_Title]
    by_cases h1 : TrimSpace title = ""
    · rw [if_pos h1]; exact h
    · rw [if_neg h1, TrimSpace_idem]; exact h1

theorem runCalls_Title_not_blank (calls : List (Call × Time)) (t : Todo)
    (h : TrimSpace t.Title ≠ "") : TrimSpace (runCalls t calls).Title ≠ "" := by
  induction calls generalizing t with
  | nil => exact h
  | cons head rest ih =>
    obtain ⟨c, now⟩ := head
    exact ih (c.apply t now) (Call_apply_Title_not_blank c t now h)

theorem Call_apply_times (c : Call) (t : Todo) (now : Time) :
    (c.apply t now).CreatedAt = t.CreatedAt ∧ (c.apply t now).UpdatedAt = now := by
  cases c with
  | MarkComplete => exact ⟨rfl, rfl⟩
  | MarkIncomplete => exact ⟨rfl, rfl⟩
  | Update title description =>
    have h := Update_frame t title description now
    exact ⟨h.2.2.1, h.2.2.2⟩

theorem runCalls_times_ordered (calls : List (Call × Time)) (t : Todo)
    (h : t.CreatedAt ≤ t.UpdatedAt) (hc : clockMonotone t.UpdatedAt calls = true) :
    (runCalls t calls).CreatedAt ≤ (runCalls t calls).UpdatedAt := by
  induction calls generalizing t with
  | nil => exact h
  | cons head rest ih =>
    obtain ⟨c, now⟩ := head
    have ht := Call_apply_times c t now
    simp only [clockMonotone, Bool.and_eq_true, decide_eq_true_eq] at hc
    apply ih (c.apply t now)
    · rw [ht.1, ht.2]; exact le_trans h hc.1
    · rw [ht.2]; exact hc.2

/-! ## Construction -/

/-- C1: for every id, every description and every title `s` that is empty or
consists solely of white space, `NewTodo` fails with `ErrEmptyTitle` and the
returned item is nil. -/
theorem NewTodo_blank_title_fails (id : Int) (s description : String) (now : Time)
    (h : isBlank s = true) :
    NewTodo id s description now = (none, some Error.ErrEmptyTitle) := by
  have h1 : TrimSpace s = "" := (TrimSpace_eq_empty_iff_isBlank s).mpr h
  unfold NewTodo
  simp [h1]

theorem NewTodo_blank_title_fails_witness :
    isBlank " \t  " = true ∧
      NewTodo 5 " \t  " "desc" 42 = (none, some Error.ErrEmptyTitle) :=
  ⟨by decide, NewTodo_blank_title_fails 5 " \t  " "desc" 42 (by decide)⟩

/-- C2: for every id, every description `d` and every title `t` holding at
least one rune that is not white space, `NewTodo` succeeds with no error, and the
item has `ID = id`, `Title` = `t` with leading and trailing white space removed
and `Description` = `d` with leading and trailing white space removed. -/
theorem NewTodo_succeeds_trimmed (id : Int) (t d : String) (now : Time)
    (h : ∃ c ∈ t.data, isSpace c = false) :
    ∃ item : Todo, NewTodo id t d now = (some item, none) ∧
      item.ID = id ∧ item.Title = TrimSpace t ∧ item.Description = TrimSpace d ∧
      IsTrimOf t item.Title ∧ IsTrimOf d item.Description := by
  have h1 : TrimSpace t ≠ "" := by
    intro he
    obtain ⟨c, hc, hs⟩ := h
    have := (TrimSpace_eq_empty_iff t).mp he c hc
    rw [hs] at this
    exact absurd this (by simp)
  refine ⟨⟨id, TrimSpace t, TrimSpace d, false, now, now⟩, ?_, rfl, rfl, rfl,
    TrimSpace_isTrimOf t, TrimSpace_isTrimOf d⟩
  unfold NewTodo
  simp [h1]

theorem NewTodo_succeeds_trimmed_witness :
    (∃ c ∈ "  Buy milk  ".data, isSpace c = false) ∧
      ∃ item : Todo, NewTodo 1 "  Buy milk  " " 2 litres " 42 = (some item, none) ∧
        item.ID = 1 ∧ item.Title = TrimSpace "  Buy milk  " ∧
        item.Description = TrimSpace " 2 litres " ∧
        IsTrimOf "  Buy milk  " item.Title ∧ IsTrimOf " 2 litres " item.Description :=
  ⟨⟨'B', by decide, by decide⟩,
    NewTodo_succeeds_trimmed 1 "  Buy milk  " " 2 litres " 42 ⟨'B', by decide, by decide⟩⟩

/-- C3: every successful call of `NewTodo` at clock reading `now` returns an
item with `Completed = false` and `CreatedAt = UpdatedAt = now`. -/
theorem NewTodo_initial_state (id : Int) (title description : String) (now : Time)
    (item : Todo) (h : NewTodo id title description now = (some item, none)) :
    item.Completed = false ∧ item.CreatedAt = now ∧ item.UpdatedAt = now ∧
      item.CreatedAt = item.UpdatedAt := by
  obtain ⟨_, rfl⟩ := NewTodo_some id title description now item h
  exact ⟨rfl, rfl, rfl, rfl⟩

theorem NewTodo_initial_state_witness :
    NewTodo 2 "Call dentist" "" 42 = (some ⟨2, "Call dentist", "", false, 42, 42⟩, none) ∧
      ((⟨2, "Call dentist", "", false, 42, 42⟩ : Todo).Completed = false ∧
        (⟨2, "Call dentist", "", false, 42, 42⟩ : Todo).CreatedAt = 42 ∧
        (⟨2, "Call dentist", "", false, 42, 42⟩ : Todo).UpdatedAt = 42 ∧
        (⟨2, "Call dentist", "", false, 42, 42⟩ : Todo).CreatedAt =
          (⟨2, "Call dentist", "", false, 42, 42⟩ : Todo).UpdatedAt) :=
  ⟨by decide,
    NewTodo_initial_state 2 "Call dentist" "" 42 ⟨2, "Call dentist", "", false, 42, 42⟩
      (by decide)⟩

/-! ## Update -/

/-- C4: `Update(title, description)` treats each field on its own: the new
`Title` is the trimmed `title` when that is not empty and the old `Title`
otherwise, the new `Description` is the trimmed `description` when that is not
empty and the old `Description` otherwise, whatever the other argument is;
`Update` is total and returns no error. -/
theorem Update_fields_independent (t : Todo) (title description : String) (now : Time) :
    (Update t title description now).Title =
        (if TrimSpace title = "" then t.Title else TrimSpace title) ∧
      (Update t title description now).Description =
        (if TrimSpace description = "" then t.Description else TrimSpace description) ∧
      (∀ (other : String) (now2 : Time),
        (Update t title other now2).Title = (Update t title description now).Title) ∧
      (∀ (other : String) (now2 : Time),
        (Update t other description now2).Description =
          (Update t title description now).Description) := by
  refine ⟨Update_Title t title description now, Update_Description t title description now,
    ?_, ?_⟩
  · intro other now2
    rw [Update_Title, Update_Title]
  · intro other now2
    rw [Update_Description, Update_Description]

/-- C5: `Update` with two inputs that are empty or white space only (`Update("", "")`
among them) leaves `Title`, `Description`, `ID`, `Completed` and `CreatedAt` as
they were and sets `UpdatedAt` to the current clock reading. -/
theorem Update_blank_inputs (t : Todo) (title description : String) (now : Time)
    (ht : isBlank title = true) (hd : isBlank description = true) :
    (Update t title description now).Title = t.Title ∧
      (Update t title description now).Description = t.Description ∧
      (Update t title description now).ID = t.ID ∧
      (Update t title description now).Completed = t.Completed ∧
      (Update t title description now).CreatedAt = t.CreatedAt ∧
      (Update t title description now).UpdatedAt = now := by
  have h1 : TrimSpace title = "" := (TrimSpace_eq_empty_iff_isBlank title).mpr ht
  have h2 : TrimSpace description = "" := (TrimSpace_eq_empty_iff_isBlank description).mpr hd
  have hf := Update_frame t title description now
  refine ⟨?_, ?_, hf.1, hf.2.1, hf.2.2.1, hf.2.2.2⟩
  · rw [Update_Title, if_pos h1]
  · rw [Update_Description, if_pos h2]

theorem Update_blank_inputs_witness :
    isBlank "" = true ∧ isBlank "" = true ∧
      ((Update ⟨1, "Original", "Original desc", true, 10, 20⟩ "" "" 30).Title = "Original" ∧
        (Update ⟨1, "Original", "Original desc", true, 10, 20⟩ "" "" 30).Description =
          "Original desc" ∧
        (Update ⟨1, "Original", "Original desc", true, 10, 20⟩ "" "" 30).ID = 1 ∧
        (Update ⟨1, "Original", "Original desc", true, 10, 20⟩ "" "" 30).Completed = true ∧
        (Update ⟨1, "Original", "Original desc", true, 10, 20⟩ "" "" 30).CreatedAt = 10 ∧
        (Update ⟨1, "Original", "Original desc", true, 10, 20⟩ "" "" 30).UpdatedAt = 30) :=
  ⟨by decide, by decide,
    Update_blank_inputs ⟨1, "Original", "Original desc", true, 10, 20⟩ "" "" 30
      (by decide) (by decide)⟩

/-- C6: for every item and every title with a non-empty trim, `Update(title, "")`
sets `Title` to the trimmed title and keeps `Description`, `ID`, `Completed` and
`CreatedAt`; `UpdatedAt`, set to the clock reading, is the only other field
written. -/
theorem Update_title_only (t : Todo) (title : String) (now : Time)
    (h : TrimSpace title ≠ "") :
    (Update t title "" now).Title = TrimSpace title ∧
      (Update t title "" now).Description = t.Description ∧
      (Update t title "" now).ID = t.ID ∧
      (Update t title "" now).Completed = t.Completed ∧
      (Update t title "" now).CreatedAt = t.CreatedAt ∧
      (Update t title "" now).UpdatedAt = now := by
  have hf := Update_frame t title "" now
  have he : TrimSpace "" = "" := by decide
  refine ⟨?_, ?_, hf.1, hf.2.1, hf.2.2.1, hf.2.2.2⟩
  · rw [Update_Title, if_neg h]
  · rw [Update_Description, if_pos he]

theorem Update_title_only_witness :
    TrimSpace " New title " ≠ "" ∧
      ((Update ⟨1, "Old title", "Keep this", true, 10, 20⟩ " New title " "" 30).Title =
          TrimSpace " New title " ∧
        (Update ⟨1, "Old title", "Keep this", true, 10, 20⟩ " New title " "" 30).Description =
          "Keep this" ∧
        (Update ⟨1, "Old title", "Keep this", true, 10, 20⟩ " New title " "" 30).ID = 1 ∧
        (Update ⟨1, "Old title", "Keep this", true, 10, 20⟩ " New title " "" 30).Completed =
          true ∧
        (Update ⟨1, "Old title", "Keep this", true, 10, 20⟩ " New title " "" 30).CreatedAt =
          10 ∧
        (Update ⟨1, "Old title", "Keep this", true, 10, 20⟩ " New title " "" 30).UpdatedAt =
          30) :=
  ⟨by decide,
    Update_title_only ⟨1, "Old title", "Keep this", true, 10, 20⟩ " New title " 30
      (by decide)⟩

/-! ## Validation and the invariants of an item -/

/-- C7: for every item, however it was built, `Validate` returns `ErrEmptyTitle`
if and only if the item's `Title` is empty after trimming white space and returns
no error otherwise; it is a read-only check: the item after the call is the item
before it, `Title` not re-trimmed. -/
theorem Validate_iff_blank_title (t : Todo) :
    ((Validate t).2 = some Error.ErrEmptyTitle ↔ TrimSpace t.Title = "") ∧
      ((Validate t).2 = none ↔ TrimSpace t.Title ≠ "") ∧
      (Validate t).1 = t := by
  unfold Validate
  by_cases h : TrimSpace t.Title = "" <;> simp [h]

/-- C8: the title of a validly constructed item is never empty after
trimming: for every item returned by a successful `NewTodo` and every finite
sequence of `MarkComplete`, `MarkIncomplete` and `Update` calls with arbitrary
arguments and clock readings, the trimmed `Title` of the resulting item is not
empty, and `Validate` returns no error. -/
theorem Title_never_blank (id : Int) (title description : String) (now : Time)
    (item : Todo) (calls : List (Call × Time))
    (h : NewTodo id title description now = (some item, none)) :
    TrimSpace (runCalls item calls).Title ≠ "" ∧
      (Validate (runCalls item calls)).2 = none := by
  obtain ⟨h1, rfl⟩ := NewTodo_some id title description now item h
  have h2 : TrimSpace (runCalls ⟨id, TrimSpace title, TrimSpace description, false, now, now⟩
      calls).Title ≠ "" := by
    apply runCalls_Title_not_blank
    show TrimSpace (TrimSpace title) ≠ ""
    rw [TrimSpace_idem]
    exact h1
  refine ⟨h2, ?_⟩
  unfold Validate
  simp [h2]

theorem Title_never_blank_witness :
    NewTodo 1 " Original " "" 10 = (some ⟨1, "Original", "", false, 10, 10⟩, none) ∧
      (TrimSpace (runCalls ⟨1, "Original", "", false, 10, 10⟩
          [(Call.Update "  " "d", 11), (Call.MarkComplete, 12), (Call.Update "" "", 13),
            (Call.MarkIncomplete, 14)]).Title ≠ "" ∧
        (Validate (runCalls ⟨1, "Original", "", false, 10, 10⟩
          [(Call.Update "  " "d", 11), (Call.MarkComplete, 12), (Call.Update "" "", 13),
            (Call.MarkIncomplete, 14)])).2 = none) :=
  ⟨by decide,
    Title_never_blank 1 " Original " "" 10 ⟨1, "Original", "", false, 10, 10⟩
      [(Call.Update "  " "d", 11), (Call.MarkComplete, 12), (Call.Update "" "", 13),
        (Call.MarkIncomplete, 14)] (by decide)⟩

/-- C9: `UpdatedAt` is never earlier than `CreatedAt`: for every item returned by
`NewTodo` and after every sequence of `MarkComplete`, `MarkIncomplete` and `Update`
calls, the successive readings of `time.Now()` never decreasing (the clock of
`time.Now()` does not run backwards), `CreatedAt ≤ UpdatedAt`. -/
theorem UpdatedAt_ge_CreatedAt (id : Int) (title description : String) (now : Time)
    (item : Todo) (calls : List (Call × Time))
    (h : NewTodo id title description now = (some item, none))
    (hclock : clockMonotone now calls = true) :
    (runCalls item calls).CreatedAt ≤ (runCalls item calls).UpdatedAt := by
  obtain ⟨_, rfl⟩ := NewTodo_some id title description now item h
  exact runCalls_times_ordered calls _ (le_refl now) hclock

theorem UpdatedAt_ge_CreatedAt_witness :
    NewTodo 1 "Test todo" "" 10 = (some ⟨1, "Test todo", "", false, 10, 10⟩, none) ∧
      clockMonotone 10
        [(Call.MarkComplete, 10), (Call.Update "New" "", 15), (Call.MarkIncomplete, 15)] =
          true ∧
      (runCalls ⟨1, "Test todo", "", false, 10, 10⟩
          [(Call.MarkComplete, 10), (Call.Update "New" "", 15),
            (Call.MarkIncomplete, 15)]).CreatedAt ≤
        (runCalls ⟨1, "Test todo", "", false, 10, 10⟩
          [(Call.MarkComplete, 10), (Call.Update "New" "", 15),
            (Call.MarkIncomplete, 15)]).UpdatedAt :=
  ⟨by decide, by decide,
    UpdatedAt_ge_CreatedAt 1 "Test todo" "" 10 ⟨1, "Test todo", "", false, 10, 10⟩
      [(Call.MarkComplete, 10), (Call.Update "New" "", 15), (Call.MarkIncomplete, 15)]
      (by decide) (by decide)⟩

/-! ## Completion -/

/-- C10, as stated, fails: an item created at clock reading 7, on which
`MarkComplete` and then `MarkIncomplete` run while the clock still reads 7, ends
with `Completed = false` but with `UpdatedAt = 7`, which is not strictly greater
than the value 7 it had before the first call. -/
theorem MarkComplete_MarkIncomplete_same_reading :
    NewTodo 1 "Test todo" "" 7 = (some ⟨1, "Test todo", "", false, 7, 7⟩, none) ∧
      clockMonotone 7 [(Call.MarkComplete, 7), (Call.MarkIncomplete, 7)] = true ∧
      (MarkIncomplete (MarkComplete ⟨1, "Test todo", "", false, 7, 7⟩ 7) 7).Completed =
        false ∧
      ¬ ((⟨1, "Test todo", "", false, 7, 7⟩ : Todo).UpdatedAt <
        (MarkIncomplete (MarkComplete ⟨1, "Test todo", "", false, 7, 7⟩ 7) 7).UpdatedAt) := by
  decide

/-- C10, amended: `MarkComplete` followed by `MarkIncomplete` on any item leaves
`Completed = false` and `UpdatedAt` equal to the clock reading taken by
`MarkIncomplete`; `UpdatedAt` is strictly greater than the value it had before
the first call exactly when that reading is strictly later than that value. -/
theorem MarkComplete_then_MarkIncomplete (t : Todo) (now1 now2 : Time) :
    (MarkIncomplete (MarkComplete t now1) now2).Completed = false ∧
      (MarkIncomplete (MarkComplete t now1) now2).UpdatedAt = now2 ∧
      (t.UpdatedAt < (MarkIncomplete (MarkComplete t now1) now2).UpdatedAt ↔
        t.UpdatedAt < now2) :=
  ⟨rfl, rfl, Iff.rfl⟩

/-! ## Completion: frame and idempotence -/

/-- C11: for every item, whatever its `Completed` was, `MarkComplete` sets
`Completed` to true and `MarkIncomplete` sets it to false; each sets `UpdatedAt`
to the current clock reading, each is total (it cannot fail), and each leaves
`ID`, `Title` and `Description` unchanged. -/
theorem MarkComplete_MarkIncomplete_effect (t : Todo) (now : Time) :
    ((MarkComplete t now).Completed = true ∧ (MarkComplete t now).UpdatedAt = now ∧
        (MarkComplete t now).ID = t.ID ∧ (MarkComplete t now).Title = t.Title ∧
        (MarkComplete t now).Description = t.Description) ∧
      ((MarkIncomplete t now).Completed = false ∧ (MarkIncomplete t now).UpdatedAt = now ∧
        (MarkIncomplete t now).ID = t.ID ∧ (MarkIncomplete t now).Title = t.Title ∧
        (MarkIncomplete t now).Description = t.Description) :=
  ⟨⟨rfl, rfl, rfl, rfl, rfl⟩, ⟨rfl, rfl, rfl, rfl, rfl⟩⟩

/-- C12: `MarkComplete` is idempotent on everything but the timestamp: calling
it twice leaves `Completed = true` and gives the same `ID`, `Title`,
`Description`, `Completed` and `CreatedAt` as calling it once, while `UpdatedAt`
is written by each call: after the first call it is the first reading, after the
second call the second reading. -/
theorem MarkComplete_twice (t : Todo) (now1 now2 : Time) :
    (MarkComplete (MarkComplete t now1) now2).Completed = true ∧
      (MarkComplete (MarkComplete t now1) now2).ID = (MarkComplete t now1).ID ∧
      (MarkComplete (MarkComplete t now1) now2).Title = (MarkComplete t now1).Title ∧
      (MarkComplete (MarkComplete t now1) now2).Description =
        (MarkComplete t now1).Description ∧
      (MarkComplete (MarkComplete t now1) now2).Completed =
        (MarkComplete t now1).Completed ∧
      (MarkComplete (MarkComplete t now1) now2).CreatedAt = (MarkComplete t now1).CreatedAt ∧
      (MarkComplete t now1).UpdatedAt = now1 ∧
      (MarkComplete (MarkComplete t now1) now2).UpdatedAt = now2 :=
  ⟨rfl, rfl, rfl, rfl, rfl, rfl, rfl, rfl⟩

/-! ## The creation time -/

theorem Method_apply_CreatedAt (m : Method) (t : Todo) (now : Time) :
    (m.apply t now).CreatedAt = t.CreatedAt := by
  cases m with
  | Mutate c => exact (Call_apply_times c t now).1
  | Validate =>
    show (Todo.Validate t).1.CreatedAt = t.CreatedAt
    unfold Todo.Validate
    by_cases h : TrimSpace t.Title = "" <;> simp [h]

theorem runMethods_CreatedAt (ms : List (Method × Time)) (t : Todo) :
    (runMethods t ms).CreatedAt = t.CreatedAt := by
  induction ms generalizing t with
  | nil => rfl
  | cons head rest ih =>
    obtain ⟨m, now⟩ := head
    show (runMethods (m.apply t now) rest).CreatedAt = t.CreatedAt
    rw [ih, Method_apply_CreatedAt]

/-- C13: `CreatedAt` is set once, at construction, and never modified: none of
`MarkComplete`, `MarkIncomplete`, `Update` (with any arguments) and `Validate`
changes the `CreatedAt` of any item, so after any sequence of these calls on an
item returned by `NewTodo` its `CreatedAt` is still the clock reading `NewTodo`
took. -/
theorem CreatedAt_never_modified (id : Int) (title description : String) (now : Time)
    (item : Todo) (ms : List (Method × Time))
    (h : NewTodo id title description now = (some item, none)) :
    (runMethods item ms).CreatedAt = now ∧
      (∀ (t : Todo) (n : Time), (MarkComplete t n).CreatedAt = t.CreatedAt) ∧
      (∀ (t : Todo) (n : Time), (MarkIncomplete t n).CreatedAt = t.CreatedAt) ∧
      (∀ (t : Todo) (a b : String) (n : Time), (Update t a b n).CreatedAt = t.CreatedAt) ∧
      (∀ t : Todo, (Validate t).1.CreatedAt = t.CreatedAt) := by
  obtain ⟨_, rfl⟩ := NewTodo_some id title description now item h
  refine ⟨runMethods_CreatedAt ms _, fun _ _ => rfl, fun _ _ => rfl,
    fun t a b n => (Update_frame t a b n).2.2.1,
    fun t => Method_apply_CreatedAt Method.Validate t 0⟩

theorem CreatedAt_never_modified_witness :
    NewTodo 1 "Test todo" "" 10 = (some ⟨1, "Test todo", "", false, 10, 10⟩, none) ∧
      ((runMethods ⟨1, "Test todo", "", false, 10, 10⟩
          [(Method.Mutate Call.MarkComplete, 11), (Method.Validate, 12),
            (Method.Mutate (Call.Update "New" " d "), 13),
            (Method.Mutate Call.MarkIncomplete, 14)]).CreatedAt = 10 ∧
        (∀ (t : Todo) (n : Time), (MarkComplete t n).CreatedAt = t.CreatedAt) ∧
        (∀ (t : Todo) (n : Time), (MarkIncomplete t n).CreatedAt = t.CreatedAt) ∧
        (∀ (t : Todo) (a b : String) (n : Time), (Update t a b n).CreatedAt = t.CreatedAt) ∧
        (∀ t : Todo, (Validate t).1.CreatedAt = t.CreatedAt)) :=
  ⟨by decide,
    CreatedAt_never_modified 1 "Test todo" "" 10 ⟨1, "Test todo", "", false, 10, 10⟩
      [(Method.Mutate Call.MarkComplete, 11), (Method.Validate, 12),
        (Method.Mutate (Call.Update "New" " d "), 13),
        (Method.Mutate Call.MarkIncomplete, 14)] (by decide)⟩

/-! ## What Update can and cannot do to the text fields -/

/-- C16: a field cannot be cleared back to empty through `Update`: for every
item whose `Description` is not empty and all inputs `title` and `description`,
the `Description` after `Update(title, description)` is not empty; likewise for
every item whose `Title` is not empty the `Title` after `Update` is not empty. -/
theorem Update_cannot_clear (t : Todo) (title description : String) (now : Time) :
    (t.Description ≠ "" → (Update t title description now).Description ≠ "") ∧
      (t.Title ≠ "" → (Update t title description now).Title ≠ "") := by
  constructor
  · intro h
    rw [Update_Description]
    by_cases h1 : TrimSpace description = ""
    · rw [if_pos h1]; exact h
    · rw [if_neg h1]; exact h1
  · intro h
    rw [Update_Title]
    by_cases h1 : TrimSpace title = ""
    · rw [if_pos h1]; exact h
    · rw [if_neg h1]; exact h1

theorem Update_cannot_clear_witness :
    ((⟨1, "Keep", "Keep this", false, 10, 20⟩ : Todo).Description ≠ "" ∧
        (Update ⟨1, "Keep", "Keep this", false, 10, 20⟩ "" "   " 30).Description ≠ "") ∧
      ((⟨1, "Keep", "Keep this", false, 10, 20⟩ : Todo).Title ≠ "" ∧
        (Update ⟨1, "Keep", "Keep this", false, 10, 20⟩ "" "   " 30).Title ≠ "") :=
  ⟨⟨by decide,
      (Update_cannot_clear ⟨1, "Keep", "Keep this", false, 10, 20⟩ "" "   " 30).1 (by decide)⟩,
    ⟨by decide,
      (Update_cannot_clear ⟨1, "Keep", "Keep this", false, 10, 20⟩ "" "   " 30).2 (by decide)⟩⟩

theorem Call_apply_trimmed (c : Call) (t : Todo) (now : Time)
    (h : TrimSpace t.Title = t.Title ∧ TrimSpace t.Description = t.Description) :
    TrimSpace (c.apply t now).Title = (c.apply t now).Title ∧
      TrimSpace (c.apply t now).Description = (c.apply t now).Description := by
  cases c with
  | MarkComplete => exact h
  | MarkIncomplete => exact h
  | Update title description =>
    show TrimSpace (Update t title description now).Title =
        (Update t title description now).Title ∧
      TrimSpace (Update t title description now).Description =
        (Update t title description now).Description
    rw [Update_Title, Update_Description]
    constructor
    · by_cases h1 : TrimSpace title = ""
      · rw [if_pos h1]; exact h.1
      · rw [if_neg h1]; exact TrimSpace_idem title
    · by_cases h1 : TrimSpace description = ""
      · rw [if_pos h1]; exact h.2
      · rw [if_neg h1]; exact TrimSpace_idem description

theorem runCalls_trimmed (calls : List (Call × Time)) (t : Todo)
    (h : TrimSpace t.Title = t.Title ∧ TrimSpace t.Description = t.Description) :
    TrimSpace (runCalls t calls).Title = (runCalls t calls).Title ∧
      TrimSpace (runCalls t calls).Description = (runCalls t calls).Description := by
  induction calls generalizing t with
  | nil => exact h
  | cons head rest ih =>
    obtain ⟨c, now⟩ := head
    exact ih (c.apply t now) (Call_apply_trimmed c t now h)

/-- C17: stored text is always in trimmed form: for every item returned by
`NewTodo` and after every sequence of `MarkComplete`, `MarkIncomplete` and
`Update` calls with arbitrary arguments, `Title` and `Description` each equal
their own white-space-trimmed value, so neither starts or ends with white
space. -/
theorem stored_text_trimmed (id : Int) (title description : String) (now : Time)
    (item : Todo) (calls : List (Call × Time))
    (h : NewTodo id title description now = (some item, none)) :
    TrimSpace (runCalls item calls).Title = (runCalls item calls).Title ∧
      TrimSpace (runCalls item calls).Description = (runCalls item calls).Description ∧
      IsTrimOf (runCalls item calls).Title (runCalls item calls).Title ∧
      IsTrimOf (runCalls item calls).Description (runCalls item calls).Description := by
  obtain ⟨_, rfl⟩ := NewTodo_some id title description now item h
  have h1 := runCalls_trimmed calls
    ⟨id, TrimSpace title, TrimSpace description, false, now, now⟩
    ⟨TrimSpace_idem title, TrimSpace_idem description⟩
  refine ⟨h1.1, h1.2, ?_, ?_⟩
  · have h2 := TrimSpace_isTrimOf
      (runCalls ⟨id, TrimSpace title, TrimSpace description, false, now, now⟩ calls).Title
    rw [h1.1] at h2
    exact h2
  · have h2 := TrimSpace_isTrimOf
      (runCalls ⟨id, TrimSpace title, TrimSpace description, false, now, now⟩
        calls).Description
    rw [h1.2] at h2
    exact h2

theorem stored_text_trimmed_witness :
    NewTodo 1 " Original " " Original desc " 10 =
        (some ⟨1, "Original", "Original desc", false, 10, 10⟩, none) ∧
      (TrimSpace (runCalls ⟨1, "Original", "Original desc", false, 10, 10⟩
          [(Call.Update "  New title  " "", 11), (Call.MarkComplete, 12),
            (Call.Update "" "  New desc  ", 13)]).Title =
        (runCalls ⟨1, "Original", "Original desc", false, 10, 10⟩
          [(Call.Update "  New title  " "", 11), (Call.MarkComplete, 12),
            (Call.Update "" "  New desc  ", 13)]).Title ∧
        TrimSpace (runCalls ⟨1, "Original", "Original desc", false, 10, 10⟩
          [(Call.Update "  New title  " "", 11), (Call.MarkComplete, 12),
            (Call.Update "" "  New desc  ", 13)]).Description =
        (runCalls ⟨1, "Original", "Original desc", false, 10, 10⟩
          [(Call.Update "  New title  " "", 11), (Call.MarkComplete, 12),
            (Call.Update "" "  New desc  ", 13)]).Description ∧
        IsTrimOf
          (runCalls ⟨1, "Original", "Original desc", false, 10, 10⟩
            [(Call.Update "  New title  " "", 11), (Call.MarkComplete, 12),
              (Call.Update "" "  New desc  ", 13)]).Title
          (runCalls ⟨1, "Original", "Original desc", false, 10, 10⟩
            [(Call.Update "  New title  " "", 11), (Call.MarkComplete, 12),
              (Call.Update "" "  New desc  ", 13)]).Title ∧
        IsTrimOf
          (runCalls ⟨1, "Original", "Original desc", false, 10, 10⟩
            [(Call.Update "  New title  " "", 11), (Call.MarkComplete, 12),
              (Call.Update "" "  New desc  ", 13)]).Description
          (runCalls ⟨1, "Original", "Original desc", false, 10, 10⟩
            [(Call.Update "  New title  " "", 11), (Call.MarkComplete, 12),
              (Call.Update "" "  New desc  ", 13)]).Description) :=
  ⟨by decide,
    stored_text_trimmed 1 " Original " " Original desc " 10
      ⟨1, "Original", "Original desc", false, 10, 10⟩
      [(Call.Update "  New title  " "", 11), (Call.MarkComplete, 12),
        (Call.Update "" "  New desc  ", 13)] (by decide)⟩

/-- C18: the constructor and the revalidation check agree on what a valid title
is: for every id, title and description, `NewTodo` returns `ErrEmptyTitle` if and
only if `Validate` returns `ErrEmptyTitle` on an item whose `Title` is that raw
title, and otherwise both succeed (`NewTodo` returns an item and no error,
`Validate` no error). Here the raw title is `item.Title`, `item` any item. -/
theorem NewTodo_agrees_with_Validate (id : Int) (item : Todo) (description : String)
    (now : Time) :
    ((NewTodo id item.Title description now).2 = some Error.ErrEmptyTitle ↔
        (Validate item).2 = some Error.ErrEmptyTitle) ∧
      ((NewTodo id item.Title description now).2 = none ↔ (Validate item).2 = none) ∧
      ((Validate item).2 = none ↔
        (NewTodo id item.Title description now).1.isSome = true) ∧
      ((Validate item).2 = some Error.ErrEmptyTitle ↔
        (NewTodo id item.Title description now).1 = none) := by
  unfold NewTodo Validate
  by_cases h : TrimSpace item.Title = "" <;> simp [h]

/-- C19: `Update` is idempotent on content: for every item and all inputs,
applying `Update(title, description)` twice gives the same `ID`, `Title`,
`Description`, `Completed` and `CreatedAt` as applying it once; only `UpdatedAt`,
the reading of the latest call, may differ. -/
theorem Update_twice (t : Todo) (title description : String) (now1 now2 : Time) :
    (Update (Update t title description now1) title description now2).ID =
        (Update t title description now1).ID ∧
      (Update (Update t title description now1) title description now2).Title =
        (Update t title description now1).Title ∧
      (Update (Update t title description now1) title description now2).Description =
        (Update t title description now1).Description ∧
      (Update (Update t title description now1) title description now2).Completed =
        (Update t title description now1).Completed ∧
      (Update (Update t title description now1) title description now2).CreatedAt =
        (Update t title description now1).CreatedAt ∧
      (Update (Update t title description now1) title description now2).UpdatedAt = now2 := by
  have hf := Update_frame (Update t title description now1) title description now2
  refine ⟨hf.1, ?_, ?_, hf.2.1, hf.2.2.1, hf.2.2.2⟩
  · rw [Update_Title (Update t title description now1), Update_Title]
    by_cases h1 : TrimSpace title = ""
    · rw [if_pos h1]
    · rw [if_neg h1, if_neg h1]
  · rw [Update_Description (Update t title description now1), Update_Description]
    by_cases h1 : TrimSpace description = ""
    · rw [if_pos h1]
    · rw [if_neg h1, if_neg h1]

end Todo

namespace Main

/-! ## The dispatcher -/

theorem run_of_no_command (osArgs : List String) (writeErr : Option String)
    (h : osArgs[1]? = none) :
    run osArgs writeErr =
      ("", some "no command specified. Use 'todo help' for usage information") := by
  have hlen : osArgs.length < 2 := by
    rcases osArgs with _ | ⟨a, _ | ⟨b, l⟩⟩
    · simp
    · simp
    · simp at h
  unfold run
  rw [dif_pos hlen]

theorem run_of_command (osArgs : List String) (writeErr : Option String) (tok : String)
    (h : osArgs[1]? = some tok) :
    run osArgs writeErr =
      if tok = "help" ∨ tok = "--help" ∨ tok = "-h" then printHelp writeErr
      else ("", some ("unknown command: " ++ tok ++ ". Use 'todo help' for usage information")) := by
  rcases osArgs with _ | ⟨a, _ | ⟨b, l⟩⟩
  · simp at h
  · simp at h
  · have hb : b = tok := by simpa using h
    subst hb
    have hlen : ¬ (a :: b :: l).length < 2 := by simp
    unfold run
    rw [dif_neg hlen]
    rfl

theorem main_of_error (osArgs : List String) (writeErr : Option String) (out err : String)
    (h : run osArgs writeErr = (out, some err)) :
    main osArgs writeErr = { stdout := out, stderr := "Error: " ++ err ++ "\n", exitCode := 1 } := by
  unfold main
  rw [h]

/-- C14: for every argument list, `run` succeeds if and only if a first
command-line argument is present and is exactly `help`, `--help` or `-h`, the
write of the help text succeeding; with no argument it fails with the
missing-command error; with any other first argument, the empty string included,
it fails with the unknown-command error. When the write of the help text fails,
`run` fails on a help token too. -/
theorem run_succeeds_iff_help (osArgs : List String) :
    ((run osArgs none).2 = none ↔
        ∃ tok, osArgs[1]? = some tok ∧ (tok = "help" ∨ tok = "--help" ∨ tok = "-h")) ∧
      (osArgs[1]? = none → ∀ writeErr, (run osArgs writeErr).2 =
        some "no command specified. Use 'todo help' for usage information") ∧
      (∀ tok, osArgs[1]? = some tok → ¬ (tok = "help" ∨ tok = "--help" ∨ tok = "-h") →
        ∀ writeErr, (run osArgs writeErr).2 =
          some ("unknown command: " ++ tok ++ ". Use 'todo help' for usage information")) ∧
      (∀ tok e, osArgs[1]? = some tok → (tok = "help" ∨ tok = "--help" ∨ tok = "-h") →
        (run osArgs (some e)).2 = some ("failed to write help output: " ++ e)) := by
  refine ⟨?_, ?_, ?_, ?_⟩
  · cases h : osArgs[1]? with
    | none =>
      rw [run_of_no_command osArgs none h]
      simp
    | some tok =>
      rw [run_of_command osArgs none tok h]
      by_cases hh : tok = "help" ∨ tok = "--help" ∨ tok = "-h"
      · rw [if_pos hh]
        simp [printHelp, hh]
      · rw [if_neg hh]
        simp [hh]
  · intro h writeErr
    rw [run_of_no_command osArgs writeErr h]
  · intro tok h hh writeErr
    rw [run_of_command osArgs writeErr tok h, if_neg hh]
  · intro tok e h hh
    rw [run_of_command osArgs (some e) tok h, if_pos hh]
    rfl

theorem run_succeeds_iff_help_witness :
    (run ["todo", "--help", "x"] none).2 = none ∧
      (run ["todo"] none).2 =
        some "no command specified. Use 'todo help' for usage information" ∧
      (run ["todo", ""] none).2 =
        some ("unknown command: " ++ "" ++ ". Use 'todo help' for usage information") ∧
      (run ["todo", "-h"] (some "closed pipe")).2 =
        some ("failed to write help output: " ++ "closed pipe") :=
  ⟨(run_succeeds_iff_help ["todo", "--help", "x"]).1.mpr ⟨"--help", by decide, by decide⟩,
    (run_succeeds_iff_help ["todo"]).2.1 (by decide) none,
    (run_succeeds_iff_help ["todo", ""]).2.2.1 "" (by decide) (by decide) none,
    (run_succeeds_iff_help ["todo", "-h"]).2.2.2 "-h" "closed pipe" (by decide) (by decide)⟩

/-- C15: for every first argument `tok` that is not a help token, the text the
program hands to standard error is exactly `Error: unknown command: `, then `tok`
unchanged, then `. Use 'todo help' for usage information` and a newline, and the
exit code is 1; with no arguments the text is exactly
`Error: no command specified. Use 'todo help' for usage information` and a
newline, and the exit code is 1. -/
theorem main_error_output (osArgs : List String) (writeErr : Option String) :
    (∀ tok, osArgs[1]? = some tok → ¬ (tok = "help" ∨ tok = "--help" ∨ tok = "-h") →
        (main osArgs writeErr).stderr =
            "Error: unknown command: " ++ tok ++ ". Use 'todo help' for usage information\n" ∧
          (main osArgs writeErr).exitCode = 1) ∧
      (osArgs[1]? = none →
        (main osArgs writeErr).stderr =
            "Error: no command specified. Use 'todo help' for usage information\n" ∧
          (main osArgs writeErr).exitCode = 1) := by
  constructor
  · intro tok h hh
    have hr := run_of_command osArgs writeErr tok h
    rw [if_neg hh] at hr
    rw [main_of_error osArgs writeErr _ _ hr]
    refine ⟨?_, rfl⟩
    have e1 : ("Error: unknown command: " : String) = "Error: " ++ "unknown command: " := by
      decide
    have e2 : (". Use 'todo help' for usage information\n" : String) =
        ". Use 'todo help' for usage information" ++ "\n" := by decide
    show "Error: " ++ ("unknown command: " ++ tok ++
        ". Use 'todo help' for usage information") ++ "\n" = _
    rw [e1, e2]
    simp only [String.append_assoc]
  · intro h
    rw [main_of_error osArgs writeErr _ _ (run_of_no_command osArgs writeErr h)]
    exact ⟨by decide, rfl⟩

theorem main_error_output_witness :
    ((main ["todo", "frobnicate"] none).stderr =
          "Error: unknown command: " ++ "frobnicate" ++
            ". Use 'todo help' for usage information\n" ∧
        (main ["todo", "frobnicate"] none).exitCode = 1) ∧
      ((main ["todo"] none).stderr =
          "Error: no command specified. Use 'todo help' for usage information\n" ∧
        (main ["todo"] none).exitCode = 1) :=
  ⟨(main_error_output ["todo", "frobnicate"] none).1 "frobnicate" (by decide) (by decide),
    (main_error_output ["todo"] none).2 (by decide)⟩

end Main
